import Mathlib

/-!
Verification development for the translator HTTP server.

The server exposes GET /api/modes, POST /api/translate and
POST /api/translate/legacy. Request handlers are embedded as pure
functions: the JSON body is a record of JavaScript-like field values,
the single outbound chat-completion call is represented by its payload
together with an abstract upstream outcome, and each handler returns
the payload it sent (if any) paired with the HTTP response.
-/

namespace Translator

/-- A JSON body field as the handler sees it: absent keys read as
undefined, and a field may hold null or a string. -/
inductive JField where
  | undef
  | jnull
  | str (s : String)
deriving DecidableEq, Repr

/-- JavaScript truthiness for the field values that occur here:
undefined, null and the empty string are falsy. -/
def JField.truthy : JField → Bool
  | .undef => false
  | .jnull => false
  | .str s => s ≠ ""

/-- Property-key coercion used by the object lookup TRANSLATION_MODES[mode]. -/
def JField.asKey : JField → String
  | .undef => "undefined"
  | .jnull => "null"
  | .str s => s

/-- String coercion used by the template literal that builds the user message. -/
def JField.interp : JField → String
  | .undef => "undefined"
  | .jnull => "null"
  | .str s => s

/-- Destructuring default: the default value replaces the field only
when the field is undefined (absent), never when it is null or a string. -/
def jsDefault (f : JField) (d : String) : JField :=
  match f with
  | .undef => .str d
  | x => x

/-- The JavaScript expression a || b for an optional chain a and a
string fallback b: an absent or empty (falsy) a yields b. -/
def jsOr (a : Option String) (b : String) : String :=
  match a with
  | some s => if s = "" then b else s
  | none => b

/-- One entry of the TRANSLATION_MODES table. -/
structure TranslationMode where
  name : String
  description : String
  systemPrompt : String
deriving DecidableEq, Repr

/-- The formal entry of the TRANSLATION_MODES table. -/
def formalMode : TranslationMode :=
  { name := "Formal"
    description := "Professional and formal Vietnamese suitable for business documents"
    systemPrompt := "You are a professional translator specializing in formal Vietnamese translations. Translate the text to Vietnamese with proper formal language suitable for business documents, legal documents, and professional communications. Rules: 1) Return ONLY the translated text without explanations or prefixes 2) Use formal Vietnamese vocabulary and grammar 3) Maintain proper paragraph breaks and sentence structure 4) Use appropriate punctuation and spacing 5) Format the output to be clean and professional for copying to document files 6) Preserve any original text structure (bullets, lists, etc.) in Vietnamese format 7) If there are keywords in parentheses ( ), keep the keywords in parentheses in the translation to help understand more." }

/-- The casual entry of the TRANSLATION_MODES table. -/
def casualMode : TranslationMode :=
  { name := "Casual"
    description := "Everyday conversational Vietnamese for informal communication"
    systemPrompt := "You are a professional translator specializing in casual Vietnamese translations. Translate the text to Vietnamese using everyday conversational language suitable for informal communication, social media, and casual conversations. Rules: 1) Return ONLY the translated text without explanations or prefixes 2) Use natural, conversational Vietnamese vocabulary and grammar 3) Maintain proper paragraph breaks and sentence structure 4) Use appropriate punctuation and spacing 5) Format the output to be clean and easy to read 6) Preserve any original text structure (bullets, lists, etc.) in Vietnamese format 7) If there are keywords in parentheses ( ), keep the keywords in parentheses in the translation to help understand more." }

/-- The technical entry of the TRANSLATION_MODES table. -/
def technicalMode : TranslationMode :=
  { name := "Technical"
    description := "Technical Vietnamese with specialized terminology for technical documents"
    systemPrompt := "You are a professional translator specializing in technical Vietnamese translations. Translate the text to Vietnamese using appropriate technical terminology and language suitable for technical documents, manuals, and professional technical communications. Rules: 1) Return ONLY the translated text without explanations or prefixes 2) Use appropriate technical Vietnamese vocabulary and terminology 3) Maintain proper paragraph breaks and sentence structure 4) Use appropriate punctuation and spacing 5) Format the output to be clean and professional for technical documentation 6) Preserve any original text structure (bullets, lists, etc.) in Vietnamese format 7) If there are keywords in parentheses ( ), keep the keywords in parentheses in the translation to help understand more 8) Maintain technical accuracy and precision." }

/-- The creative entry of the TRANSLATION_MODES table. -/
def creativeMode : TranslationMode :=
  { name := "Creative"
    description := "Creative and expressive Vietnamese for artistic and creative content"
    systemPrompt := "You are a professional translator specializing in creative Vietnamese translations. Translate the text to Vietnamese using creative and expressive language suitable for artistic content, creative writing, and expressive communications. Rules: 1) Return ONLY the translated text without explanations or prefixes 2) Use creative and expressive Vietnamese vocabulary and grammar 3) Maintain proper paragraph breaks and sentence structure 4) Use appropriate punctuation and spacing 5) Format the output to be clean and engaging 6) Preserve any original text structure (bullets, lists, etc.) in Vietnamese format 7) If there are keywords in parentheses ( ), keep the keywords in parentheses in the translation to help understand more 8) Maintain the creative and artistic tone of the original text." }

/-- The static mode table of the server, in insertion order. -/
def TRANSLATION_MODES : List (String × TranslationMode) :=
  [("formal", formalMode), ("casual", casualMode),
   ("technical", technicalMode), ("creative", creativeMode)]

/-- Own-property lookup on the mode table: the four entries only. -/
def lookupMode (k : String) : Option TranslationMode :=
  (TRANSLATION_MODES.find? (fun p => p.1 = k)).map (fun p => p.2)

/-- Object.keys(TRANSLATION_MODES): the mode ids in insertion order
(own enumerable keys only, no inherited members). -/
def modeKeys : List String :=
  TRANSLATION_MODES.map (fun p => p.1)

/-- The member names of Object.prototype, which an object literal such
as TRANSLATION_MODES inherits: bracket lookup at any of these keys
yields a truthy value (a built-in function, or Object.prototype itself
for the key named double-underscore proto). -/
def objectProtoMembers : List String :=
  ["constructor", "hasOwnProperty", "isPrototypeOf", "propertyIsEnumerable",
   "toLocaleString", "toString", "valueOf", "__defineGetter__",
   "__defineSetter__", "__lookupGetter__", "__lookupSetter__", "__proto__"]

/-- The name property of the inherited value at an Object.prototype
member key: the constructor key yields the Object function whose name
is Object, the proto accessor yields Object.prototype which has no name
property, and every other key yields a built-in function named after
the key itself. -/
def protoMemberFunctionName (k : String) : Option String :=
  if k = "constructor" then some "Object"
  else if k = "__proto__" then none
  else some k

/-- The three properties the translate handler reads off the value of
TRANSLATION_MODES[mode]: each is an Option because reading a property
off an inherited function or off Object.prototype yields undefined. -/
structure JsModeValue where
  systemPrompt : Option String
  name : Option String
  description : Option String
deriving DecidableEq, Repr

/-- The property values of a real (own-key) mode entry. -/
def TranslationMode.jsValue (m : TranslationMode) : JsModeValue :=
  { systemPrompt := some m.systemPrompt
    name := some m.name
    description := some m.description }

/-- The JavaScript bracket lookup TRANSLATION_MODES[k]: an own key
yields its table entry; otherwise the lookup walks the prototype chain,
so an Object.prototype member name yields a truthy value whose
systemPrompt and description read as undefined; any other key yields
undefined. The result is none exactly when the source guard
(negation of TRANSLATION_MODES[mode]) fires. -/
def modeAccess (k : String) : Option JsModeValue :=
  match lookupMode k with
  | some m => some m.jsValue
  | none =>
      if k ∈ objectProtoMembers then
        some { systemPrompt := none
               name := protoMemberFunctionName k
               description := none }
      else none

/-- The body of the single axios.post a handler issues: model name, the
two chat messages, and the optional decoding fields each endpoint sets.
systemContent is an Option because a mode that resolved to an inherited
Object.prototype member has an undefined systemPrompt, and JSON
serialization drops an undefined message content. -/
structure OutboundPayload where
  model : String
  systemContent : Option String
  userContent : String
  temperature : Option ℚ
  maxTokens : Option Nat
  stream : Option Bool
deriving DecidableEq, Repr

/-- One entry of the GET /api/modes response list. The spec names the
template field promptTemplate; in the source JSON it is systemPrompt. -/
structure ModeEntry where
  id : String
  name : String
  description : String
  systemPrompt : String
deriving DecidableEq, Repr

/-- The JSON response body: every field any handler ever writes, absent
fields being none. -/
structure ResBody where
  success : Option Bool := none
  modes : Option (List ModeEntry) := none
  error : Option String := none
  message : Option String := none
  availableModes : Option (List String) := none
  originalText : Option JField := none
  translatedText : Option String := none
  targetLanguage : Option JField := none
  mode : Option JField := none
  modeName : Option String := none
  modeDescription : Option String := none
deriving DecidableEq, Repr

/-- An HTTP response: status code plus JSON body. -/
structure HttpResponse where
  status : Nat
  body : ResBody
deriving DecidableEq, Repr

/-- Outcome of the outbound call of POST /api/translate. A well-formed
upstream response is abstracted by the content of its first completion
choice (response.data.choices[0].message.content); a failure carries the
optional transport status (error.response?.status), the optional upstream
error message (error.response?.data?.error?.message) and the transport
error description (error.message). -/
inductive Upstream where
  | ok (content : String)
  | err (status : Option Nat) (upstreamMsg : Option String) (errMessage : String)
deriving DecidableEq, Repr

/-- Outcome of the outbound call of POST /api/translate/legacy: a
well-formed response is abstracted by its flat content field
(response.data.content); a failure carries the optional transport
status (error.response?.status, which the legacy catch block never
inspects), the optional upstream error (error.response?.data?.error)
and the transport error description (error.message). -/
inductive LegacyUpstream where
  | ok (content : String)
  | err (status : Option Nat) (upstreamErr : Option String) (errMessage : String)
deriving DecidableEq, Repr

/-- Request body of POST /api/translate. -/
structure TranslateBody where
  text : JField
  targetLanguage : JField
  mode : JField
deriving DecidableEq, Repr

/-- Request body of POST /api/translate/legacy; a mode key, if sent, is
never destructured by the handler and so does not appear here. -/
structure LegacyBody where
  text : JField
  targetLanguage : JField
deriving DecidableEq, Repr

/-- GET /api/modes handler. -/
def modesHandler : HttpResponse :=
  { status := 200
    body := { success := some true
              modes := some (TRANSLATION_MODES.map
                (fun p => { id := p.1
                            name := p.2.name
                            description := p.2.description
                            systemPrompt := p.2.systemPrompt })) } }

/-- The axios.post body of POST /api/translate for a request and the
value its mode lookup produced: model gpt-4, the system and user
messages, temperature 0.3 and max_tokens 2000. -/
def translatePayloadJs (b : TranslateBody) (v : JsModeValue) : OutboundPayload :=
  { model := "gpt-4"
    systemContent := v.systemPrompt
    userContent := "Translate this text to Vietnamese: " ++ b.text.interp
    temperature := some (3 / 10 : ℚ)
    maxTokens := some 2000
    stream := none }

/-- The axios.post body of POST /api/translate when the mode resolved
to a real (own-key) table entry. -/
def translatePayload (b : TranslateBody) (m : TranslationMode) : OutboundPayload :=
  translatePayloadJs b m.jsValue

/-- POST /api/translate handler: returns the outbound payload it issued
(none when validation fails before the call) and the HTTP response. -/
def translateHandler (b : TranslateBody) (up : Upstream) :
    Option OutboundPayload × HttpResponse :=
  let text := b.text
  let targetLanguage := jsDefault b.targetLanguage "vietnamese"
  let mode := jsDefault b.mode "formal"
  if ¬ text.truthy then
    (none, { status := 400, body := { error := some "Text is required" } })
  else
    match modeAccess mode.asKey with
    | none =>
        (none, { status := 400,
                 body := { error := some "Invalid mode"
                           availableModes := some modeKeys } })
    | some selectedMode =>
        let payload : OutboundPayload := translatePayloadJs b selectedMode
        match up with
        | .ok content =>
            (some payload,
             { status := 200
               body := { success := some true
                         originalText := some text
                         translatedText := some content
                         targetLanguage := some targetLanguage
                         mode := some mode
                         modeName := selectedMode.name
                         modeDescription := selectedMode.description } })
        | .err status upstreamMsg errMessage =>
            if status = some 401 then
              (some payload,
               { status := 401
                 body := { error := some "OpenAI API key is invalid or missing"
                           message := some "Please check your OpenAI API key configuration" } })
            else if status = some 429 then
              (some payload,
               { status := 429
                 body := { error := some "OpenAI API rate limit exceeded"
                           message := some "Please try again later or upgrade your OpenAI plan" } })
            else
              (some payload,
               { status := 500
                 body := { error := some "Translation failed"
                           message := some (jsOr upstreamMsg errMessage) } })

/-- The fixed system message of the legacy endpoint. -/
def legacySystemPrompt : String :=
  "You are a professional translator. Translate the text to Vietnamese with proper formatting suitable for document use. Rules: 1) Return ONLY the translated text without explanations or prefixes 2) Maintain proper paragraph breaks and sentence structure 3) Use appropriate punctuation and spacing 4) Format the output to be clean and professional for copying to document files 5) Preserve any original text structure (bullets, lists, etc.) in Vietnamese format 6) If there are keywords in parentheses ( ), keep the keywords in parentheses in the translation to help understand more."

/-- The axios.post body of POST /api/translate/legacy: model gpt-4.1,
the fixed system message, the user message and stream false; no
temperature and no max_tokens field is set. -/
def legacyPayload (b : LegacyBody) : OutboundPayload :=
  { model := "gpt-4.1"
    systemContent := some legacySystemPrompt
    userContent := "Translate this text to Vietnamese: " ++ b.text.interp
    temperature := none
    maxTokens := none
    stream := some false }

/-- POST /api/translate/legacy handler. -/
def translateLegacyHandler (b : LegacyBody) (up : LegacyUpstream) :
    Option OutboundPayload × HttpResponse :=
  let text := b.text
  let targetLanguage := jsDefault b.targetLanguage "vietnamese"
  if ¬ text.truthy then
    (none, { status := 400, body := { error := some "Text is required" } })
  else
    let payload : OutboundPayload := legacyPayload b
    match up with
    | .ok content =>
        (some payload,
         { status := 200
           body := { success := some true
                     originalText := some text
                     translatedText := some content
                     targetLanguage := some targetLanguage
                     mode := some (.str "legacy") } })
    | .err _status upstreamErr errMessage =>
        (some payload,
         { status := 500
           body := { error := some "Translation failed"
                     message := some (jsOr upstreamErr errMessage) } })

/-- A key outside the four mode ids resolves to no own entry. -/
theorem lookupMode_eq_none_of_not_mem (s : String)
    (h : s ∉ (["formal", "casual", "technical", "creative"] : List String)) :
    lookupMode s = none := by
  simp only [List.mem_cons, List.not_mem_nil, or_false, not_or] at h
  obtain ⟨h1, h2, h3, h4⟩ := h
  simp [lookupMode, TRANSLATION_MODES, List.find?, Ne.symm h1, Ne.symm h2,
    Ne.symm h3, Ne.symm h4]

/-- A key that is neither a mode id nor an inherited Object.prototype
member name reads as undefined, so the bad-mode guard fires. -/
theorem modeAccess_eq_none_of_not_mem (s : String)
    (h1 : s ∉ (["formal", "casual", "technical", "creative"] : List String))
    (h2 : s ∉ objectProtoMembers) :
    modeAccess s = none := by
  rw [modeAccess, lookupMode_eq_none_of_not_mem s h1]
  simp [h2]

/-- A truthy bracket lookup means the key is a mode id or an inherited
Object.prototype member name. -/
theorem mem_of_modeAccess_eq_some (s : String) (v : JsModeValue)
    (h : modeAccess s = some v) :
    s ∈ (["formal", "casual", "technical", "creative"] : List String) ∨
    s ∈ objectProtoMembers := by
  by_contra hc
  push_neg at hc
  rw [modeAccess_eq_none_of_not_mem s hc.1 hc.2] at h
  exact Option.noConfusion h

/-- An own-key lookup hit makes the bracket lookup yield the same
entry. -/
theorem modeAccess_eq_some_of_lookup (s : String) (m : TranslationMode)
    (h : lookupMode s = some m) :
    modeAccess s = some m.jsValue := by
  rw [modeAccess, h]

/-- A falsy text short-circuits POST /api/translate before any call. -/
theorem translate_falsy (b : TranslateBody) (up : Upstream)
    (h : b.text.truthy = false) :
    translateHandler b up =
      (none, { status := 400, body := { error := some "Text is required" } }) := by
  simp [translateHandler, h]

/-- A mode key on which the bracket lookup reads undefined
short-circuits POST /api/translate with the bad-mode 400 before any
call. -/
theorem translate_badmode (b : TranslateBody) (up : Upstream)
    (ht : b.text.truthy = true)
    (hm : modeAccess ((jsDefault b.mode "formal").asKey) = none) :
    translateHandler b up =
      (none, { status := 400,
               body := { error := some "Invalid mode"
                         availableModes := some modeKeys } }) := by
  cases up with
  | ok content => simp [translateHandler, ht, hm]
  | err st um em => simp [translateHandler, ht, hm]

/-- The full result of POST /api/translate on a validated request and a
well-formed upstream response. -/
theorem translate_ok_result (b : TranslateBody) (content : String)
    (v : JsModeValue) (ht : b.text.truthy = true)
    (hm : modeAccess ((jsDefault b.mode "formal").asKey) = some v) :
    translateHandler b (.ok content) =
      (some (translatePayloadJs b v),
       { status := 200
         body := { success := some true
                   originalText := some b.text
                   translatedText := some content
                   targetLanguage := some (jsDefault b.targetLanguage "vietnamese")
                   mode := some (jsDefault b.mode "formal")
                   modeName := v.name
                   modeDescription := v.description } }) := by
  simp [translateHandler, ht, hm]

/-- An upstream 401 on a validated request maps to the local 401. -/
theorem translate_err_401 (b : TranslateBody) (st : Option Nat)
    (um : Option String) (em : String) (v : JsModeValue)
    (ht : b.text.truthy = true)
    (hm : modeAccess ((jsDefault b.mode "formal").asKey) = some v)
    (h1 : st = some 401) :
    translateHandler b (.err st um em) =
      (some (translatePayloadJs b v),
       { status := 401
         body := { error := some "OpenAI API key is invalid or missing"
                   message := some "Please check your OpenAI API key configuration" } }) := by
  simp [translateHandler, ht, hm, h1]

/-- An upstream 429 on a validated request maps to the local 429. -/
theorem translate_err_429 (b : TranslateBody) (st : Option Nat)
    (um : Option String) (em : String) (v : JsModeValue)
    (ht : b.text.truthy = true)
    (hm : modeAccess ((jsDefault b.mode "formal").asKey) = some v)
    (h2 : st = some 429) :
    translateHandler b (.err st um em) =
      (some (translatePayloadJs b v),
       { status := 429
         body := { error := some "OpenAI API rate limit exceeded"
                   message := some "Please try again later or upgrade your OpenAI plan" } }) := by
  subst h2
  simp [translateHandler, ht, hm]

/-- Any other upstream or transport failure on a validated request maps
to the local 500 with the opportunistic message. -/
theorem translate_err_other (b : TranslateBody) (st : Option Nat)
    (um : Option String) (em : String) (v : JsModeValue)
    (ht : b.text.truthy = true)
    (hm : modeAccess ((jsDefault b.mode "formal").asKey) = some v)
    (h1 : st ≠ some 401) (h2 : st ≠ some 429) :
    translateHandler b (.err st um em) =
      (some (translatePayloadJs b v),
       { status := 500
         body := { error := some "Translation failed"
                   message := some (jsOr um em) } }) := by
  simp [translateHandler, ht, hm, h1, h2]

/-- A falsy text short-circuits the legacy endpoint before any call. -/
theorem legacy_falsy (b : LegacyBody) (up : LegacyUpstream)
    (h : b.text.truthy = false) :
    translateLegacyHandler b up =
      (none, { status := 400, body := { error := some "Text is required" } }) := by
  simp [translateLegacyHandler, h]

/-- The full result of the legacy endpoint on a validated request and a
well-formed upstream response. -/
theorem legacy_ok_result (b : LegacyBody) (content : String)
    (ht : b.text.truthy = true) :
    translateLegacyHandler b (.ok content) =
      (some (legacyPayload b),
       { status := 200
         body := { success := some true
                   originalText := some b.text
                   translatedText := some content
                   targetLanguage := some (jsDefault b.targetLanguage "vietnamese")
                   mode := some (.str "legacy") } }) := by
  simp [translateLegacyHandler, ht]

/-- Any transport failure of the legacy endpoint, whatever its status,
maps to the local 500 with the opportunistic message. -/
theorem legacy_err_result (b : LegacyBody) (st : Option Nat)
    (ue : Option String) (em : String) (ht : b.text.truthy = true) :
    translateLegacyHandler b (.err st ue em) =
      (some (legacyPayload b),
       { status := 500
         body := { error := some "Translation failed"
                   message := some (jsOr ue em) } }) := by
  simp [translateLegacyHandler, ht]

/-- C1 counterexample: a request whose text is a single space (nonempty
whitespace) passes the falsiness check, so the handler does issue the
outbound call and, on a successful upstream, responds 200 rather than
400 — refuting the claim for whitespace-only text. -/
theorem C1_counterexample :
    (translateHandler ⟨.str " ", .undef, .undef⟩ (.ok "xin")).1.isSome = true ∧
    (translateHandler ⟨.str " ", .undef, .undef⟩ (.ok "xin")).2.status = 200 := by
  constructor <;> rfl

/-- C1 (amended): for every request whose text field is falsy (absent,
null or the empty string), POST /api/translate responds 400 with the
error Text is required and issues no outbound call; whitespace-only
nonempty text is not rejected. -/
theorem C1_empty_text_rejected (b : TranslateBody) (up : Upstream)
    (h : b.text.truthy = false) :
    (translateHandler b up).1 = none ∧
    (translateHandler b up).2.status = 400 ∧
    (translateHandler b up).2.body.error = some "Text is required" := by
  simp [translateHandler, h]

/-- Witness for C1_empty_text_rejected at a request with absent text. -/
theorem C1_witness :
    JField.truthy JField.undef = false ∧
    ((translateHandler ⟨.undef, .undef, .undef⟩ (.ok "xin")).1 = none ∧
     (translateHandler ⟨.undef, .undef, .undef⟩ (.ok "xin")).2.status = 400 ∧
     (translateHandler ⟨.undef, .undef, .undef⟩ (.ok "xin")).2.body.error =
       some "Text is required") :=
  ⟨rfl, C1_empty_text_rejected ⟨.undef, .undef, .undef⟩ (.ok "xin") rfl⟩

/-- C2 counterexample, two concrete inputs. First, a request carrying
an unknown mode string but no text is answered by the text check first:
the 400 body holds only the error Text is required and no
availableModes list. Second, a request whose mode is the string
toString — not among the four ids — is not answered 400 at all: the
bracket lookup walks the prototype chain to a truthy inherited member,
so the handler issues the outbound call and, on a well-formed upstream
response, answers 200. -/
theorem C2_counterexample :
    ((translateHandler ⟨.undef, .undef, .str "xx"⟩ (.ok "xin")).2.status = 400 ∧
     (translateHandler ⟨.undef, .undef, .str "xx"⟩ (.ok "xin")).2.body.availableModes
       = none ∧
     (translateHandler ⟨.undef, .undef, .str "xx"⟩ (.ok "xin")).2.body.error =
       some "Text is required") ∧
    ((translateHandler ⟨.str "hi", .undef, .str "toString"⟩ (.ok "xin")).2.status
       = 200 ∧
     (translateHandler ⟨.str "hi", .undef, .str "toString"⟩ (.ok "xin")).1.isSome
       = true) := by
  refine ⟨⟨rfl, rfl, rfl⟩, rfl, rfl⟩

/-- C2 (amended): for every request whose text is truthy and whose mode
is a string that is neither one of the four registry ids nor the name
of an inherited Object.prototype member, POST /api/translate responds
400 with the error Invalid mode and the list of valid mode ids, and
issues no outbound call. When the text is absent or empty the 400 comes
from the text check and carries no mode list, and a mode naming an
Object.prototype member (such as toString) bypasses the check so that
an outbound call is issued. -/
theorem C2_invalid_mode (b : TranslateBody) (up : Upstream) (s : String)
    (ht : b.text.truthy = true) (hm : b.mode = .str s)
    (hs : s ∉ (["formal", "casual", "technical", "creative"] : List String))
    (hproto : s ∉ objectProtoMembers) :
    (translateHandler b up).1 = none ∧
    (translateHandler b up).2.status = 400 ∧
    (translateHandler b up).2.body.error = some "Invalid mode" ∧
    (translateHandler b up).2.body.availableModes =
      some ["formal", "casual", "technical", "creative"] := by
  have hlook : modeAccess ((jsDefault b.mode "formal").asKey) = none := by
    rw [hm]
    exact modeAccess_eq_none_of_not_mem s hs hproto
  simp [translateHandler, ht, hlook, modeKeys, TRANSLATION_MODES]

/-- Witness for C2_invalid_mode at text hi and mode xx. -/
theorem C2_witness :
    JField.truthy (.str "hi") = true ∧
    TranslateBody.mode ⟨.str "hi", .undef, .str "xx"⟩ = .str "xx" ∧
    "xx" ∉ (["formal", "casual", "technical", "creative"] : List String) ∧
    "xx" ∉ objectProtoMembers ∧
    ((translateHandler ⟨.str "hi", .undef, .str "xx"⟩ (.ok "xin")).1 = none ∧
     (translateHandler ⟨.str "hi", .undef, .str "xx"⟩ (.ok "xin")).2.status = 400 ∧
     (translateHandler ⟨.str "hi", .undef, .str "xx"⟩ (.ok "xin")).2.body.error =
       some "Invalid mode" ∧
     (translateHandler ⟨.str "hi", .undef, .str "xx"⟩ (.ok "xin")).2.body.availableModes
       = some ["formal", "casual", "technical", "creative"]) :=
  ⟨by decide, rfl, by decide, by decide,
   C2_invalid_mode ⟨.str "hi", .undef, .str "xx"⟩ (.ok "xin") "xx"
     (by decide) rfl (by decide) (by decide)⟩

/-- C3 counterexample, two concrete inputs. First, a successful legacy
translation reports the mode legacy, a string that is not an id of the
mode registry. Second, even on the primary endpoint, a request whose
mode is the string toString reaches a 200 whose mode field is toString,
also not a registry id: the bracket lookup of the source walks the
prototype chain, so the inherited member passes the truthiness check. -/
theorem C3_counterexample :
    ((translateLegacyHandler ⟨.str "hi", .undef⟩ (.ok "xin")).2.body.success =
       some true ∧
     (translateLegacyHandler ⟨.str "hi", .undef⟩ (.ok "xin")).2.body.mode =
       some (.str "legacy") ∧
     lookupMode "legacy" = none) ∧
    ((translateHandler ⟨.str "hi", .undef, .str "toString"⟩ (.ok "xin")).2.body.success
       = some true ∧
     (translateHandler ⟨.str "hi", .undef, .str "toString"⟩ (.ok "xin")).2.body.mode
       = some (.str "toString") ∧
     lookupMode "toString" = none) := by
  refine ⟨⟨rfl, rfl, ?_⟩, rfl, rfl, ?_⟩
  · exact lookupMode_eq_none_of_not_mem "legacy" (by decide)
  · exact lookupMode_eq_none_of_not_mem "toString" (by decide)

/-- C3 (amended): every successful result of POST /api/translate carries
a mode string on which the bracket lookup was truthy — one of the four
registry ids, or the name of an inherited Object.prototype member, the
latter escaping the registry so that the invariant fails even on the
primary endpoint; POST /api/translate/legacy always reports the literal
mode legacy, which is not a registry id. -/
theorem C3_success_mode_resolves (b : TranslateBody) (up : Upstream)
    (h : (translateHandler b up).2.body.success = some true) :
    (∃ s, (translateHandler b up).2.body.mode = some (.str s) ∧
      (s ∈ (["formal", "casual", "technical", "creative"] : List String) ∨
       s ∈ objectProtoMembers)) ∧
    (∀ lb content,
      (translateLegacyHandler lb (.ok content)).2.body.success = some true →
      (translateLegacyHandler lb (.ok content)).2.body.mode =
        some (.str "legacy")) := by
  constructor
  · by_cases ht : b.text.truthy = true
    · rcases hm : modeAccess ((jsDefault b.mode "formal").asKey) with _ | v
      · rw [translate_badmode b up ht hm] at h
        simp at h
      · cases up with
        | ok content =>
            refine ⟨(jsDefault b.mode "formal").asKey, ?_, ?_⟩
            · rw [translate_ok_result b content v ht hm]
              rcases hb : b.mode with _ | _ | s
              · simp [hb, jsDefault, JField.asKey]
              · exfalso
                rw [hb] at hm
                rw [show jsDefault JField.jnull "formal" = JField.jnull from rfl] at hm
                rw [show JField.asKey JField.jnull = "null" from rfl] at hm
                rw [modeAccess_eq_none_of_not_mem "null" (by decide) (by decide)] at hm
                exact Option.noConfusion hm
              · simp [hb, jsDefault, JField.asKey]
            · exact mem_of_modeAccess_eq_some _ v hm
        | err st um em =>
            exfalso
            by_cases h1 : st = some 401
            · rw [translate_err_401 b st um em v ht hm h1] at h
              simp at h
            · by_cases h2 : st = some 429
              · rw [translate_err_429 b st um em v ht hm h2] at h
                simp at h
              · rw [translate_err_other b st um em v ht hm h1 h2] at h
                simp at h
    · rw [translate_falsy b up (by simpa using ht)] at h
      simp at h
  · intro lb content hs
    by_cases hlt : lb.text.truthy = true
    · rw [legacy_ok_result lb content hlt]
    · rw [legacy_falsy lb (.ok content) (by simpa using hlt)] at hs
      simp at hs

/-- Witness for C3_success_mode_resolves at a plain successful
request. -/
theorem C3_witness :
    (translateHandler ⟨.str "hi", .undef, .undef⟩ (.ok "xin")).2.body.success =
      some true ∧
    ((∃ s,
        (translateHandler ⟨.str "hi", .undef, .undef⟩ (.ok "xin")).2.body.mode =
          some (.str s) ∧
        (s ∈ (["formal", "casual", "technical", "creative"] : List String) ∨
         s ∈ objectProtoMembers)) ∧
     (∀ lb content,
        (translateLegacyHandler lb (.ok content)).2.body.success = some true →
        (translateLegacyHandler lb (.ok content)).2.body.mode =
          some (.str "legacy"))) :=
  ⟨rfl, C3_success_mode_resolves ⟨.str "hi", .undef, .undef⟩ (.ok "xin") rfl⟩

/-- POST /api/translate issues a call only past both validations, and
the payload it issues is translatePayloadJs at the looked-up value. -/
theorem translate_payload_of_issued (b : TranslateBody) (up : Upstream)
    (p : OutboundPayload) (hp : (translateHandler b up).1 = some p) :
    b.text.truthy = true ∧
    ∃ v, modeAccess ((jsDefault b.mode "formal").asKey) = some v ∧
      p = translatePayloadJs b v := by
  by_cases ht : b.text.truthy = true
  · rcases hm : modeAccess ((jsDefault b.mode "formal").asKey) with _ | v
    · rw [translate_badmode b up ht hm] at hp
      exact Option.noConfusion hp
    · refine ⟨ht, v, rfl, ?_⟩
      cases up with
      | ok content =>
          rw [translate_ok_result b content v ht hm] at hp
          exact (Option.some.inj hp).symm
      | err st um em =>
          by_cases h1 : st = some 401
          · rw [translate_err_401 b st um em v ht hm h1] at hp
            exact (Option.some.inj hp).symm
          · by_cases h2 : st = some 429
            · rw [translate_err_429 b st um em v ht hm h2] at hp
              exact (Option.some.inj hp).symm
            · rw [translate_err_other b st um em v ht hm h1 h2] at hp
              exact (Option.some.inj hp).symm
  · rw [translate_falsy b up (by simpa using ht)] at hp
    exact Option.noConfusion hp

/-- Every call the legacy endpoint issues carries the legacyPayload. -/
theorem legacy_payload_of_issued (b : LegacyBody) (up : LegacyUpstream)
    (q : OutboundPayload) (hq : (translateLegacyHandler b up).1 = some q) :
    q = legacyPayload b := by
  by_cases ht : b.text.truthy = true
  · cases up with
    | ok content =>
        rw [legacy_ok_result b content ht] at hq
        exact (Option.some.inj hq).symm
    | err st ue em =>
        rw [legacy_err_result b st ue em ht] at hq
        exact (Option.some.inj hq).symm
  · rw [legacy_falsy b up (by simpa using ht)] at hq
    exact Option.noConfusion hq

/-- C4 counterexample: a legacy request with absent text is a failing
request answered with 400, not 500, and its body carries no message
field — refuting the claim that every failing legacy request yields
HTTP 500 with error and message. -/
theorem C4_counterexample :
    (translateLegacyHandler ⟨.undef, .undef⟩ (.ok "xin")).2.status = 400 ∧
    (translateLegacyHandler ⟨.undef, .undef⟩ (.ok "xin")).2.body.message = none := by
  refine ⟨rfl, rfl⟩

/-- C4 (amended): every failing response of the legacy endpoint is
either the validation 400 with only an error field, or a 500 with error
and message; transport failures of any status map uniformly to the 500
with no unauthorized or rate-limited subclasses. -/
theorem C4_legacy_failures (b : LegacyBody) (up : LegacyUpstream)
    (hfail : (translateLegacyHandler b up).2.body.success ≠ some true) :
    ((translateLegacyHandler b up).2.status = 400 ∧
     (translateLegacyHandler b up).2.body.error = some "Text is required" ∧
     (translateLegacyHandler b up).2.body.message = none) ∨
    ((translateLegacyHandler b up).2.status = 500 ∧
     (translateLegacyHandler b up).2.body.error = some "Translation failed" ∧
     ((translateLegacyHandler b up).2.body.message).isSome = true) := by
  by_cases ht : b.text.truthy = true
  · cases up with
    | ok content =>
        exact absurd (by rw [legacy_ok_result b content ht]) hfail
    | err st ue em =>
        right
        rw [legacy_err_result b st ue em ht]
        exact ⟨rfl, rfl, rfl⟩
  · left
    rw [legacy_falsy b up (by simpa using ht)]
    exact ⟨rfl, rfl, rfl⟩

/-- Witness for C4_legacy_failures at a transport failure with no
transport status. -/
theorem C4_witness :
    (translateLegacyHandler ⟨.str "hi", .undef⟩
        (.err none none "socket hang up")).2.body.success ≠ some true ∧
    (((translateLegacyHandler ⟨.str "hi", .undef⟩
         (.err none none "socket hang up")).2.status = 400 ∧
      (translateLegacyHandler ⟨.str "hi", .undef⟩
         (.err none none "socket hang up")).2.body.error = some "Text is required" ∧
      (translateLegacyHandler ⟨.str "hi", .undef⟩
         (.err none none "socket hang up")).2.body.message = none) ∨
     ((translateLegacyHandler ⟨.str "hi", .undef⟩
         (.err none none "socket hang up")).2.status = 500 ∧
      (translateLegacyHandler ⟨.str "hi", .undef⟩
         (.err none none "socket hang up")).2.body.error = some "Translation failed" ∧
      ((translateLegacyHandler ⟨.str "hi", .undef⟩
         (.err none none "socket hang up")).2.body.message).isSome = true)) :=
  ⟨by decide,
   C4_legacy_failures ⟨.str "hi", .undef⟩ (.err none none "socket hang up") (by decide)⟩

/-- C5 counterexample: the call issued by a legacy request carries no
max_tokens and no temperature field — refuting the claim that every
outbound call of both endpoints carries the 2000-token ceiling and the
low-temperature configuration. -/
theorem C5_counterexample :
    ((translateLegacyHandler ⟨.str "hi", .undef⟩ (.ok "xin")).1.map
        (fun p => p.maxTokens)) = some none ∧
    ((translateLegacyHandler ⟨.str "hi", .undef⟩ (.ok "xin")).1.map
        (fun p => p.temperature)) = some none := by
  refine ⟨rfl, rfl⟩

/-- C5 (amended): every outbound call issued by POST /api/translate
carries max_tokens 2000 and temperature 0.3; the call issued by the
legacy endpoint carries neither field, only stream false. -/
theorem C5_payload_decoding (b : TranslateBody) (up : Upstream)
    (lb : LegacyBody) (lup : LegacyUpstream) (p q : OutboundPayload)
    (hp : (translateHandler b up).1 = some p)
    (hq : (translateLegacyHandler lb lup).1 = some q) :
    (p.maxTokens = some 2000 ∧ p.temperature = some (3 / 10 : ℚ)) ∧
    (q.maxTokens = none ∧ q.temperature = none ∧ q.stream = some false) := by
  obtain ⟨-, v, -, hpe⟩ := translate_payload_of_issued b up p hp
  have hqe := legacy_payload_of_issued lb lup q hq
  subst hpe
  subst hqe
  exact ⟨⟨rfl, rfl⟩, rfl, rfl, rfl⟩

/-- Witness for C5_payload_decoding at plain successful requests on
both endpoints. -/
theorem C5_witness :
    ((translateHandler ⟨.str "hi", .undef, .undef⟩ (.ok "xin")).1 =
       some (translatePayload ⟨.str "hi", .undef, .undef⟩ formalMode) ∧
     (translateLegacyHandler ⟨.str "hi", .undef⟩ (.ok "xin")).1 =
       some (legacyPayload ⟨.str "hi", .undef⟩)) ∧
    (((translatePayload ⟨.str "hi", .undef, .undef⟩ formalMode).maxTokens = some 2000 ∧
      (translatePayload ⟨.str "hi", .undef, .undef⟩ formalMode).temperature =
        some (3 / 10 : ℚ)) ∧
     ((legacyPayload ⟨.str "hi", .undef⟩).maxTokens = none ∧
      (legacyPayload ⟨.str "hi", .undef⟩).temperature = none ∧
      (legacyPayload ⟨.str "hi", .undef⟩).stream = some false)) :=
  ⟨⟨rfl, rfl⟩,
   C5_payload_decoding ⟨.str "hi", .undef, .undef⟩ (.ok "xin")
     ⟨.str "hi", .undef⟩ (.ok "xin")
     (translatePayload ⟨.str "hi", .undef, .undef⟩ formalMode)
     (legacyPayload ⟨.str "hi", .undef⟩) rfl rfl⟩

/-- C6 counterexample: the 400 answer to a request with absent text has
no message field — refuting the claim that every failure body of POST
/api/translate carries both error and message. -/
theorem C6_counterexample :
    (translateHandler ⟨.undef, .undef, .undef⟩ (.ok "xin")).2.status = 400 ∧
    (translateHandler ⟨.undef, .undef, .undef⟩ (.ok "xin")).2.body.message = none := by
  refine ⟨rfl, rfl⟩

/-- C6 (amended): every failure response of POST /api/translate carries
an error field; the 401, 429 and 500 responses also carry a message
field, while the two 400 responses carry none. -/
theorem C6_failure_bodies (b : TranslateBody) (up : Upstream) :
    ((translateHandler b up).2.status = 400 →
      ((translateHandler b up).2.body.error).isSome = true ∧
      (translateHandler b up).2.body.message = none) ∧
    ((translateHandler b up).2.status = 401 ∨
     (translateHandler b up).2.status = 429 ∨
     (translateHandler b up).2.status = 500 →
      ((translateHandler b up).2.body.error).isSome = true ∧
      ((translateHandler b up).2.body.message).isSome = true) := by
  by_cases ht : b.text.truthy = true
  · rcases hm : modeAccess ((jsDefault b.mode "formal").asKey) with _ | v
    · rw [translate_badmode b up ht hm]
      refine ⟨fun _ => ⟨rfl, rfl⟩, fun hst => ?_⟩
      rcases hst with h | h | h <;> simp at h
    · cases up with
      | ok content =>
          rw [translate_ok_result b content v ht hm]
          refine ⟨fun hst => ?_, fun hst => ?_⟩
          · simp at hst
          · rcases hst with h | h | h <;> simp at h
      | err st um em =>
          by_cases h1 : st = some 401
          · rw [translate_err_401 b st um em v ht hm h1]
            refine ⟨fun hst => ?_, fun _ => ⟨rfl, rfl⟩⟩
            simp at hst
          · by_cases h2 : st = some 429
            · rw [translate_err_429 b st um em v ht hm h2]
              refine ⟨fun hst => ?_, fun _ => ⟨rfl, rfl⟩⟩
              simp at hst
            · rw [translate_err_other b st um em v ht hm h1 h2]
              refine ⟨fun hst => ?_, fun _ => ⟨rfl, rfl⟩⟩
              simp at hst
  · rw [translate_falsy b up (by simpa using ht)]
    refine ⟨fun _ => ⟨rfl, rfl⟩, fun hst => ?_⟩
    rcases hst with h | h | h <;> simp at h

/-- Witness for C6_failure_bodies at a 400 request (absent text) and at
an upstream 401. -/
theorem C6_witness :
    ((translateHandler ⟨.undef, .undef, .undef⟩ (.ok "xin")).2.status = 400 ∧
     ((translateHandler ⟨.undef, .undef, .undef⟩ (.ok "xin")).2.body.error).isSome = true ∧
     (translateHandler ⟨.undef, .undef, .undef⟩ (.ok "xin")).2.body.message = none) ∧
    ((translateHandler ⟨.str "hi", .undef, .undef⟩
        (.err (some 401) none "boom")).2.status = 401 ∧
     ((translateHandler ⟨.str "hi", .undef, .undef⟩
        (.err (some 401) none "boom")).2.body.error).isSome = true ∧
     ((translateHandler ⟨.str "hi", .undef, .undef⟩
        (.err (some 401) none "boom")).2.body.message).isSome = true) :=
  ⟨⟨rfl, (C6_failure_bodies ⟨.undef, .undef, .undef⟩ (.ok "xin")).1 rfl⟩,
   ⟨rfl, (C6_failure_bodies ⟨.str "hi", .undef, .undef⟩
      (.err (some 401) none "boom")).2 (Or.inl rfl)⟩⟩

/-- C7 (confirmed): once POST /api/translate has issued its call, an
upstream 401 maps to the local 401, an upstream 429 to the local 429,
and any other failure to the local 500 whose message is the upstream
error message when present (and nonempty, per the falsy-coalescing of
the source), else the transport error description. -/
theorem C7_upstream_error_mapping (b : TranslateBody) (st : Option Nat)
    (um : Option String) (em : String) (p : OutboundPayload)
    (hp : (translateHandler b (.err st um em)).1 = some p) :
    (st = some 401 → (translateHandler b (.err st um em)).2.status = 401) ∧
    (st = some 429 → (translateHandler b (.err st um em)).2.status = 429) ∧
    (st ≠ some 401 → st ≠ some 429 →
      (translateHandler b (.err st um em)).2.status = 500 ∧
      (translateHandler b (.err st um em)).2.body.error = some "Translation failed" ∧
      (∀ s, um = some s → s ≠ "" →
        (translateHandler b (.err st um em)).2.body.message = some s) ∧
      (um = none →
        (translateHandler b (.err st um em)).2.body.message = some em)) := by
  obtain ⟨ht, v, hm, -⟩ := translate_payload_of_issued b (.err st um em) p hp
  refine ⟨fun h1 => ?_, fun h2 => ?_, fun h1 h2 => ?_⟩
  · rw [translate_err_401 b st um em v ht hm h1]
  · rw [translate_err_429 b st um em v ht hm h2]
  · rw [translate_err_other b st um em v ht hm h1 h2]
    refine ⟨rfl, rfl, fun s hs hne => ?_, fun hn => ?_⟩
    · simp [jsOr, hs, hne]
    · simp [jsOr, hn]

/-- Witness for C7_upstream_error_mapping at an upstream 503 carrying
an upstream error message. -/
theorem C7_witness :
    (translateHandler ⟨.str "hi", .undef, .undef⟩
        (.err (some 503) (some "upstream broke") "transport down")).1 =
      some (translatePayload ⟨.str "hi", .undef, .undef⟩ formalMode) ∧
    (translateHandler ⟨.str "hi", .undef, .undef⟩
        (.err (some 503) (some "upstream broke") "transport down")).2.status = 500 ∧
    (translateHandler ⟨.str "hi", .undef, .undef⟩
        (.err (some 503) (some "upstream broke") "transport down")).2.body.message =
      some "upstream broke" := by
  refine ⟨rfl, ?_, ?_⟩
  · exact ((C7_upstream_error_mapping ⟨.str "hi", .undef, .undef⟩ (some 503)
      (some "upstream broke") "transport down"
      (translatePayload ⟨.str "hi", .undef, .undef⟩ formalMode) rfl).2.2
      (by decide) (by decide)).1
  · exact ((C7_upstream_error_mapping ⟨.str "hi", .undef, .undef⟩ (some 503)
      (some "upstream broke") "transport down"
      (translatePayload ⟨.str "hi", .undef, .undef⟩ formalMode) rfl).2.2
      (by decide) (by decide)).2.2.1 "upstream broke" rfl (by decide)

/-- C8 (confirmed): whenever POST /api/translate has issued its call and
the upstream response is well formed, the success body copies the first
completion content into translatedText and the submitted text into
originalText, both verbatim. -/
theorem C8_success_verbatim (b : TranslateBody) (content : String)
    (p : OutboundPayload)
    (hp : (translateHandler b (.ok content)).1 = some p) :
    (translateHandler b (.ok content)).2.body.success = some true ∧
    (translateHandler b (.ok content)).2.body.translatedText = some content ∧
    (translateHandler b (.ok content)).2.body.originalText = some b.text := by
  obtain ⟨ht, v, hm, -⟩ := translate_payload_of_issued b (.ok content) p hp
  rw [translate_ok_result b content v ht hm]
  exact ⟨rfl, rfl, rfl⟩

/-- Witness for C8_success_verbatim at a plain successful request. -/
theorem C8_witness :
    (translateHandler ⟨.str "hello", .undef, .undef⟩ (.ok "xin chao")).1 =
      some (translatePayload ⟨.str "hello", .undef, .undef⟩ formalMode) ∧
    ((translateHandler ⟨.str "hello", .undef, .undef⟩ (.ok "xin chao")).2.body.success =
       some true ∧
     (translateHandler ⟨.str "hello", .undef, .undef⟩ (.ok "xin chao")).2.body.translatedText =
       some "xin chao" ∧
     (translateHandler ⟨.str "hello", .undef, .undef⟩ (.ok "xin chao")).2.body.originalText =
       some (.str "hello")) :=
  ⟨rfl, C8_success_verbatim ⟨.str "hello", .undef, .undef⟩ "xin chao"
    (translatePayload ⟨.str "hello", .undef, .undef⟩ formalMode) rfl⟩

/-- C9 (confirmed): GET /api/modes answers 200 with success true and
exactly four entries whose ids are formal, casual, technical, creative
in insertion order, each with nonempty name and description and each
carrying the instruction template of its registry entry (the field the
spec names promptTemplate is named systemPrompt in the source JSON). -/
theorem C9_modes_listing :
    modesHandler.status = 200 ∧
    modesHandler.body.success = some true ∧
    ∃ l, modesHandler.body.modes = some l ∧
      l.length = 4 ∧
      l.map (fun e => e.id) = ["formal", "casual", "technical", "creative"] ∧
      ∀ e ∈ l, e.name ≠ "" ∧ e.description ≠ "" ∧
        lookupMode e.id =
          some { name := e.name, description := e.description,
                 systemPrompt := e.systemPrompt } := by
  refine ⟨rfl, rfl, ?_⟩
  refine ⟨_, rfl, rfl, rfl, ?_⟩
  intro e he
  simp only [TRANSLATION_MODES, List.map_cons, List.map_nil, List.mem_cons,
    List.not_mem_nil, or_false] at he
  rcases he with rfl | rfl | rfl | rfl
  · exact ⟨by decide, by decide, rfl⟩
  · exact ⟨by decide, by decide, rfl⟩
  · exact ⟨by decide, by decide, rfl⟩
  · exact ⟨by decide, by decide, rfl⟩

/-- C10 (confirmed): in POST /api/translate the defaults formal and
vietnamese replace a field only when it is absent (undefined); a request
whose mode is explicitly null or the empty string is answered 400
Invalid mode with the valid mode list, never translated in formal mode. -/
theorem C10_defaults_and_null_mode (b : TranslateBody) (up : Upstream)
    (ht : b.text.truthy = true)
    (hm : b.mode = .jnull ∨ b.mode = .str "") :
    translateHandler { b with mode := .undef } up =
      translateHandler { b with mode := .str "formal" } up ∧
    translateHandler { b with targetLanguage := .undef } up =
      translateHandler { b with targetLanguage := .str "vietnamese" } up ∧
    ((translateHandler b up).1 = none ∧
     (translateHandler b up).2.status = 400 ∧
     (translateHandler b up).2.body.error = some "Invalid mode" ∧
     (translateHandler b up).2.body.availableModes =
       some ["formal", "casual", "technical", "creative"]) := by
  refine ⟨rfl, rfl, ?_⟩
  have hlook : modeAccess ((jsDefault b.mode "formal").asKey) = none := by
    rcases hm with h | h <;> rw [h]
    · exact modeAccess_eq_none_of_not_mem "null" (by decide) (by decide)
    · exact modeAccess_eq_none_of_not_mem "" (by decide) (by decide)
  rw [translate_badmode b up ht hlook]
  exact ⟨rfl, rfl, rfl, rfl⟩

/-- Witness for C10_defaults_and_null_mode at a request carrying an
explicit null mode. -/
theorem C10_witness :
    JField.truthy (.str "hi") = true ∧
    (TranslateBody.mode ⟨.str "hi", .undef, .jnull⟩ = .jnull ∨
     TranslateBody.mode ⟨.str "hi", .undef, .jnull⟩ = .str "") ∧
    (translateHandler { (⟨.str "hi", .undef, .jnull⟩ : TranslateBody) with
        mode := .undef } (.ok "xin") =
      translateHandler { (⟨.str "hi", .undef, .jnull⟩ : TranslateBody) with
        mode := .str "formal" } (.ok "xin") ∧
     translateHandler { (⟨.str "hi", .undef, .jnull⟩ : TranslateBody) with
        targetLanguage := .undef } (.ok "xin") =
      translateHandler { (⟨.str "hi", .undef, .jnull⟩ : TranslateBody) with
        targetLanguage := .str "vietnamese" } (.ok "xin") ∧
     ((translateHandler ⟨.str "hi", .undef, .jnull⟩ (.ok "xin")).1 = none ∧
      (translateHandler ⟨.str "hi", .undef, .jnull⟩ (.ok "xin")).2.status = 400 ∧
      (translateHandler ⟨.str "hi", .undef, .jnull⟩ (.ok "xin")).2.body.error =
        some "Invalid mode" ∧
      (translateHandler ⟨.str "hi", .undef, .jnull⟩ (.ok "xin")).2.body.availableModes =
        some ["formal", "casual", "technical", "creative"])) :=
  ⟨by decide, Or.inl rfl,
   C10_defaults_and_null_mode ⟨.str "hi", .undef, .jnull⟩ (.ok "xin")
     (by decide) (Or.inl rfl)⟩

end Translator
